import Mathlib

/-!
Shallow embedding of the PhishGuard FastAPI backend (`app.py`) and proofs
about its scoring pipeline.

Modelling conventions:
* Python floats are modelled as real numbers (`ℝ`); the float literals of the
  source (`0.3`, `3.5`, `0.5`, …) become the corresponding real literals.
* The external collaborators — `tldextract`, the WHOIS lookup, the DNS
  resolver, the TLS connector — are passed in as an explicit `World` record;
  each probe's failure is a first-class `Except.error` outcome, mirroring the
  `try/except` blocks of `extract_domain_info`.  The `urlparse` call itself
  sits outside every `try/except` and raises `ValueError("Invalid IPv6 URL")`
  on an unbalanced-bracket authority; that error propagates uncaught out of
  `extract_domain_info` and the handler.
* The five process-wide model globals (`url_model`, `email_model`,
  `coord_model`, `url_vec`, `email_vec`) are `Option`-valued fields of a
  `Models` record: `none` is the pre-startup `None`.  A handler that touches a
  `none` global raises `AttributeError` (attribute access on Python `None`),
  which FastAPI surfaces as an HTTP 500 internal server error.
* `model.predict_proba(vec.transform([s]))[0][1]` — the positive-class
  probability of one input — is collapsed into a single function application
  `model (vec s)`; the vectorizer output type `V` is abstract.
-/

namespace PhishGuard

/-- `URL_BLEND = 0.3` (app.py line 29), the fixed weight of the URL ML
probability in the `/scan_url` blend. -/
noncomputable def URL_BLEND : ℝ := 0.3

/-- `shannon_entropy(s)` (app.py lines 74–78): `0.0` for a falsy (empty)
string, otherwise `-Σ p·log₂ p` over the character frequency distribution
`p = s.count(c)/len(s)` for `c ∈ set(s)`. -/
noncomputable def shannon_entropy (s : String) : ℝ :=
  if s = "" then 0
  else -∑ c ∈ s.data.toFinset,
    ((s.data.count c : ℝ) / s.data.length) *
      Real.logb 2 ((s.data.count c : ℝ) / s.data.length)

/-- The characters CPython's `urlsplit` accepts inside a URL scheme
(letters, digits, `+`, `-`, `.`). -/
def schemeChar (c : Char) : Bool :=
  c.isAlphanum || c == '+' || c == '-' || c == '.'

/-- CPython `urlsplit`, scheme step: when the text before the first `:` is a
nonempty valid scheme starting with a letter, the scheme and the colon are
stripped; otherwise the input is unchanged. -/
def stripScheme (url : List Char) : List Char :=
  match url.findIdx? (fun c => c == ':') with
  | none => url
  | some i =>
    if decide (0 < i) && (url.take i).all schemeChar && (url.headD ' ').isAlpha
    then url.drop (i + 1)
    else url

/-- CPython `_splitnetloc`: the network authority extends to the first
`/`, `?` or `#`. -/
def takeNetloc (l : List Char) : List Char :=
  l.takeWhile (fun c => !(c == '/' || c == '?' || c == '#'))

/-- An uncaught Python exception escaping a handler.  `attributeError` is what
attribute access on a still-`None` model global raises; `valueError` is what
`urlparse` raises ("Invalid IPv6 URL") on an unbalanced-bracket authority. -/
inductive PyError where
  | attributeError : PyError
  | valueError : PyError

/-- `urlparse(url).netloc`: nonempty exactly when `//` follows the optional
scheme; then it is the text up to the next `/`, `?` or `#`.  CPython's
`urlsplit` raises `ValueError("Invalid IPv6 URL")` when that authority
contains `[` without `]` or `]` without `[`. -/
def netloc (url : String) : Except PyError String :=
  let rest := stripScheme url.data
  if rest.take 2 = ['/', '/'] then
    let n := takeNetloc (rest.drop 2)
    if (n.contains '[' && !n.contains ']') || (n.contains ']' && !n.contains '[')
    then .error .valueError
    else .ok ⟨n⟩
  else .ok ""

/-- The shape of the `creation_date` attribute of a WHOIS answer as the code
inspects it: a datetime (recorded by its signed age in days relative to
`datetime.utcnow()`), a Python list of such values, or any non-datetime value
such as `None`. -/
inductive Creation where
  | nonDate : Creation
  | date : ℤ → Creation
  | list : List Creation → Creation

/-- The `try` block of app.py lines 89–99: a raised lookup error gives
`age = None`; a list answer is replaced by its first element (an empty list
raises `IndexError`, caught by the bare `except`, giving `None`); a datetime
gives its age in days; anything else gives `None`. -/
def whoisAge : Except Unit Creation → Option ℤ
  | .error _ => none
  | .ok (.date d) => some d
  | .ok (.list []) => none
  | .ok (.list (.date d :: _)) => some d
  | .ok (.list (_ :: _)) => none
  | .ok .nonDate => none

/-- The external collaborators of `extract_domain_info`.  Each probe is a
single blocking call whose failure (any raised exception) is the `error`
branch. -/
structure World where
  /-- `tldextract.extract(domain).registered_domain`. -/
  registered_domain : String → String
  /-- `whois.whois(registered).creation_date`, or `error` when the lookup
  raises. -/
  whois : String → Except Unit Creation
  /-- `dns.resolver.resolve(registered, 'A')`: `ok` on success, `error` on
  NXDOMAIN, timeout, or any other raised failure. -/
  dns : String → Except Unit Unit
  /-- The TLS handshake to `(registered, 443)`: `ok` on success, `error` on
  timeout, refusal, certificate error, or any other raised failure. -/
  tls : String → Except Unit Unit

/-- Python `s.split(".")` on a character list: always a nonempty list of the
dot-separated pieces, `[""]` for the empty string. -/
def splitDot : List Char → List (List Char)
  | [] => [[]]
  | c :: rest =>
    if c = '.' then [] :: splitDot rest
    else
      match splitDot rest with
      | [] => [[c]]
      | h :: t => (c :: h) :: t

/-- The `info` dict built by `extract_domain_info`: registration age in days
(`None` = unknown), DNS resolvability, TLS reachability, and the Shannon
entropy of the first label of the registered domain. -/
structure Info where
  age : Option ℤ
  dns : Bool
  ssl : Bool
  entropy : ℝ

/-- `extract_domain_info(url)` (app.py lines 80–119): take `urlparse(url).netloc`
or, when that is empty, the whole input string; extract the registered domain;
run the three probes, each degrading to its default on failure; attach the
entropy of the first dot-separated label.  The `urlparse` call on line 81 sits
outside every `try/except`: its `ValueError` propagates out of the function
uncaught. -/
noncomputable def extract_domain_info (W : World) (url : String) :
    Except PyError Info :=
  match netloc url with
  | .error e => .error e
  | .ok nl =>
    let domain := if nl = "" then url else nl
    let registered := W.registered_domain domain
    let age := whoisAge (W.whois registered)
    let dnsOk := match W.dns registered with | .ok _ => true | .error _ => false
    let sslOk := match W.tls registered with | .ok _ => true | .error _ => false
    let label : String := ⟨(splitDot registered.data).headD []⟩
    .ok { age := age, dns := dnsOk, ssl := sslOk, entropy := shannon_entropy label }

/-- The registered domain `extract_domain_info` probes once `urlparse` has
produced the netloc `nl`: `nl` or, when empty, the whole input, fed through
`tldextract`. -/
def registeredOf (W : World) (nl url : String) : String :=
  W.registered_domain (if nl = "" then url else nl)

/-- The first rule's guard: `info["age"] is not None and info["age"] < 30`. -/
def ageFlag : Option ℤ → Bool
  | some a => a < 30
  | none => false

/-- `rule_score(info)` (app.py lines 121–134): one point for each of — young
registration (`age` known and `< 30`), no DNS record, no TLS endpoint, label
entropy above `3.5` — divided by `total = 4`. -/
noncomputable def rule_score (info : Info) : ℝ :=
  (((if ageFlag info.age then 1 else 0)
    + (if !info.dns then 1 else 0)
    + (if !info.ssl then 1 else 0)
    + (if info.entropy > 3.5 then 1 else 0) : ℕ) : ℝ) / 4

/-- `risk_level(prob)` (app.py lines 136–141). -/
noncomputable def risk_level (prob : ℝ) : String :=
  if prob < 0.3 then "LOW"
  else if prob < 0.6 then "MEDIUM"
  else "HIGH"

/-- The five process-wide model globals (app.py lines 35–39), each `None`
until `load_models` has run.  `V` is the abstract output type of the text
vectorizers; a model maps a vectorized input to its positive-class
probability `predict_proba(x)[0][1]`; the coordinator maps the meta feature
row to its positive-class probability. -/
structure Models (V : Type) where
  url_model : Option (V → ℝ)
  email_model : Option (V → ℝ)
  coord_model : Option (List ℝ → ℝ)
  url_vec : Option (String → V)
  email_vec : Option (String → V)

/-- The JSON body returned by `/scan_url`. -/
structure URLResponse where
  ml_score : ℝ
  domain_score : ℝ
  blended_score : ℝ
  risk : String
  phishing : Bool

/-- The JSON body returned by `/scan_email`. -/
structure EmailResponse where
  probability : ℝ
  risk : String
  phishing : Bool

/-- The JSON body returned by `/scan_combined`. -/
structure CombinedResponse where
  final_probability : ℝ
  risk : String
  phishing : Bool

/-- `scan_url` (app.py lines 148–168).  There is no readiness check and no
URL validation: the handler first evaluates
`url_model.predict_proba(url_vec.transform([data.url]))`, which raises
`AttributeError` when either global is still `None`; it then calls
`extract_domain_info`, whose uncaught `ValueError` (unbalanced-bracket
authority) propagates; otherwise it produces the full blended response. -/
noncomputable def scan_url {V : Type} (M : Models V) (W : World) (url : String) :
    Except PyError URLResponse :=
  match M.url_model, M.url_vec with
  | some model, some vec =>
    let url_ml := model (vec url)
    match extract_domain_info W url with
    | .error e => .error e
    | .ok info =>
      let domain_rule := rule_score info
      let blended := URL_BLEND * url_ml + (1 - URL_BLEND) * domain_rule
      .ok { ml_score := url_ml
            domain_score := domain_rule
            blended_score := blended
            risk := risk_level blended
            phishing := decide (blended ≥ 0.5) }
  | _, _ => .error .attributeError

/-- `scan_email` (app.py lines 175–188). -/
noncomputable def scan_email {V : Type} (M : Models V) (content : String) :
    Except PyError EmailResponse :=
  match M.email_model, M.email_vec with
  | some model, some vec =>
    let email_prob := model (vec content)
    .ok { probability := email_prob
          risk := risk_level email_prob
          phishing := decide (email_prob ≥ 0.5) }
  | _, _ => .error .attributeError

/-- `scan_combined` (app.py lines 195–220).  The handler never calls
`extract_domain_info` or `rule_score` (it takes no `World`): the meta row
`X_meta = [[url_ml, email_prob, 1, 1]]` is fed to the coordinator and its
positive-class probability is the final probability. -/
noncomputable def scan_combined {V : Type} (M : Models V) (url content : String) :
    Except PyError CombinedResponse :=
  match M.url_model, M.url_vec, M.email_model, M.email_vec, M.coord_model with
  | some um, some uv, some em, some ev, some cm =>
    let url_ml := um (uv url)
    let email_prob := em (ev content)
    let final_prob := cm [url_ml, email_prob, 1, 1]
    .ok { final_probability := final_prob
          risk := risk_level final_prob
          phishing := decide (final_prob ≥ 0.5) }
  | _, _, _, _, _ => .error .attributeError

/-- FastAPI's HTTP status for a handler outcome: 200 for a returned dict,
500 (internal server error) for any uncaught exception, `AttributeError` and
`ValueError` alike. -/
def httpStatus {R : Type} : Except PyError R → ℕ
  | .ok _ => 200
  | .error _ => 500

/-! Concrete worlds and model bundles used to instantiate the theorems. -/

/-- A world in which every probe fails and `tldextract` finds no registered
domain — the behaviour of the real collaborators on a nonsense input. -/
def failWorld : World :=
  { registered_domain := fun _ => ""
    whois := fun _ => .error ()
    dns := fun _ => .error ()
    tls := fun _ => .error () }

/-- A world reporting a domain registered 5 days ago whose DNS and TLS probes
fail. -/
def youngWorld : World :=
  { registered_domain := fun _ => ""
    whois := fun _ => .ok (.date 5)
    dns := fun _ => .error ()
    tls := fun _ => .error () }

/-- A fully loaded model bundle (trivial vectorizer over `Unit`): the URL
classifier answers 0.9, the email classifier 0.8, the coordinator halves the
first meta feature. -/
noncomputable def testModels : Models Unit :=
  { url_model := some fun _ => 0.9
    email_model := some fun _ => 0.8
    coord_model := some fun l => l.headD 0 / 2
    url_vec := some fun _ => ()
    email_vec := some fun _ => () }

/-- A fully loaded bundle whose classifiers all answer 0.5. -/
noncomputable def halfModels : Models Unit :=
  { url_model := some fun _ => 0.5
    email_model := some fun _ => 0.5
    coord_model := some fun _ => 0.5
    url_vec := some fun _ => ()
    email_vec := some fun _ => () }

/-- The model globals before startup has run: all five are `None`. -/
def noModels : Models Unit :=
  { url_model := none, email_model := none, coord_model := none
    url_vec := none, email_vec := none }

/-- A loaded bundle whose URL classifier returns the out-of-range value 2.0. -/
noncomputable def outOfRangeModels : Models Unit :=
  { url_model := some fun _ => 2
    email_model := some fun _ => 0.5
    coord_model := some fun _ => 0.5
    url_vec := some fun _ => ()
    email_vec := some fun _ => () }

/-! Helper lemmas. -/

/-- Entropy of the empty string. -/
theorem shannon_entropy_empty : shannon_entropy "" = 0 := by
  simp [shannon_entropy]

/-- `ageFlag` decides exactly the first rule's condition. -/
theorem ageFlag_iff (o : Option ℤ) : ageFlag o = true ↔ ∃ a, o = some a ∧ a < 30 := by
  cases o <;> simp [ageFlag]

/-- The raw rule count is at most 4. -/
theorem rule_count_le_four (info : Info) :
    ((if ageFlag info.age then 1 else 0)
      + (if !info.dns then 1 else 0)
      + (if !info.ssl then 1 else 0)
      + (if info.entropy > 3.5 then 1 else 0) : ℕ) ≤ 4 := by
  split_ifs <;> norm_num

/-- `rule_score` always lands in `[0, 1]`. -/
theorem rule_score_mem_unit (info : Info) :
    0 ≤ rule_score info ∧ rule_score info ≤ 1 := by
  unfold rule_score
  constructor
  · positivity
  · rw [div_le_one (by norm_num : (0:ℝ) < 4)]
    exact_mod_cast le_trans (Nat.cast_le.mpr (rule_count_le_four info)) (by norm_num)

/-- When `urlparse` succeeds, `extract_domain_info` returns the complete
four-signal record built from the probes on the registered domain. -/
theorem extract_domain_info_ok {W : World} {url nl : String}
    (hn : netloc url = .ok nl) :
    extract_domain_info W url =
      .ok { age := whoisAge (W.whois (registeredOf W nl url))
            dns := match W.dns (registeredOf W nl url) with
                   | .ok _ => true | .error _ => false
            ssl := match W.tls (registeredOf W nl url) with
                   | .ok _ => true | .error _ => false
            entropy :=
              shannon_entropy ⟨(splitDot (registeredOf W nl url).data).headD []⟩ } := by
  unfold extract_domain_info
  rw [hn]
  rfl

/-- A convex combination with weight `URL_BLEND` of two unit-interval values
stays in the unit interval. -/
theorem blend_mem_unit {p q : ℝ} (hp0 : 0 ≤ p) (hp1 : p ≤ 1)
    (hq0 : 0 ≤ q) (hq1 : q ≤ 1) :
    0 ≤ URL_BLEND * p + (1 - URL_BLEND) * q
    ∧ URL_BLEND * p + (1 - URL_BLEND) * q ≤ 1 := by
  rw [URL_BLEND]
  constructor <;> linarith

/-! Claim theorems. -/

/-- C10: `shannon_entropy` of the empty string is exactly 0.0, and of any
string consisting of one repeated character — "aaaa" in particular — it is
exactly 0.0, whatever the length; the function is total (defined on every
string, deterministically, with no failure branch). -/
theorem shannon_entropy_zero_cases :
    shannon_entropy "" = 0
    ∧ (∀ (c : Char) (n : ℕ), shannon_entropy ⟨List.replicate n c⟩ = 0)
    ∧ shannon_entropy "aaaa" = 0 := by
  have hrep : ∀ (c : Char) (n : ℕ), shannon_entropy ⟨List.replicate n c⟩ = 0 := by
    intro c n
    cases n with
    | zero => simpa [List.replicate] using shannon_entropy_empty
    | succ m =>
      have hne : (⟨List.replicate (m + 1) c⟩ : String) ≠ "" := by
        simp [String.ext_iff]
      rw [shannon_entropy, if_neg hne]
      show -∑ x ∈ (List.replicate (m + 1) c).toFinset, _ = 0
      rw [List.toFinset_replicate_of_ne_zero (Nat.succ_ne_zero m), Finset.sum_singleton,
        List.count_replicate_self, List.length_replicate]
      rw [div_self (by positivity), Real.logb_one, mul_zero, neg_zero]
  refine ⟨shannon_entropy_empty, hrep, ?_⟩
  have h4 : ("aaaa" : String) = ⟨List.replicate 4 'a'⟩ := rfl
  rw [h4]
  exact hrep 'a' 4

/-- C2: `rule_score` is the number of true conditions among — registration age
known and below 30 days, DNS not resolvable, TLS not reachable, label entropy
above 3.5 — divided by 4; hence it always lies in {0, 0.25, 0.5, 0.75, 1},
and the record with age 5 days, failing DNS, failing TLS and entropy 4.0
scores exactly 1.0. -/
theorem rule_score_quarters :
    (∀ info : Info,
       rule_score info * 4 =
         (if ageFlag info.age then 1 else 0)
         + (if info.dns = false then 1 else 0)
         + (if info.ssl = false then 1 else 0)
         + (if info.entropy > 3.5 then 1 else 0)
       ∧ (ageFlag info.age = true ↔ ∃ a, info.age = some a ∧ a < 30))
    ∧ (∀ info : Info, rule_score info ∈ ({0, 0.25, 0.5, 0.75, 1} : Set ℝ))
    ∧ rule_score { age := some 5, dns := false, ssl := false, entropy := 4 } = 1 := by
  refine ⟨fun info => ⟨?_, ageFlag_iff info.age⟩, fun info => ?_, ?_⟩
  · unfold rule_score
    rw [div_mul_cancel₀ _ (by norm_num : (4:ℝ) ≠ 0)]
    push_cast
    rcases info with ⟨age, dns, ssl, ent⟩
    cases dns <;> cases ssl <;> by_cases hf : ageFlag age <;>
      by_cases hent : ent > 3.5 <;> simp [hf, hent]
  · have hmem : ∀ n : ℕ, n ≤ 4 → ((n : ℝ) / 4) ∈ ({0, 0.25, 0.5, 0.75, 1} : Set ℝ) := by
      intro n hn
      interval_cases n <;> norm_num [Set.mem_insert_iff]
    exact hmem _ (rule_count_le_four info)
  · have hent : (4 : ℝ) > 3.5 := by norm_num
    simp only [rule_score, ageFlag, Bool.not_false, if_pos hent]
    norm_num

/-- C4: `risk_level` is total and maps `x < 0.3` to LOW, `0.3 ≤ x < 0.6` to
MEDIUM and `x ≥ 0.6` to HIGH, always producing one of the three labels; the
same function is the `risk` field of all three endpoints, applied to the
blended score, the email probability and the final probability
respectively. -/
theorem risk_level_step_function :
    (∀ x : ℝ,
       (x < 0.3 → risk_level x = "LOW")
       ∧ (0.3 ≤ x → x < 0.6 → risk_level x = "MEDIUM")
       ∧ (0.6 ≤ x → risk_level x = "HIGH")
       ∧ (risk_level x = "LOW" ∨ risk_level x = "MEDIUM" ∨ risk_level x = "HIGH"))
    ∧ (∀ (V : Type) (M : Models V) (W : World) (url : String) (r : URLResponse),
         scan_url M W url = .ok r → r.risk = risk_level r.blended_score)
    ∧ (∀ (V : Type) (M : Models V) (content : String) (r : EmailResponse),
         scan_email M content = .ok r → r.risk = risk_level r.probability)
    ∧ (∀ (V : Type) (M : Models V) (url content : String) (r : CombinedResponse),
         scan_combined M url content = .ok r → r.risk = risk_level r.final_probability) := by
  refine ⟨fun x => ⟨?_, ?_, ?_, ?_⟩, ?_, ?_, ?_⟩
  · intro h; rw [risk_level, if_pos h]
  · intro h1 h2; rw [risk_level, if_neg (by linarith), if_pos h2]
  · intro h; rw [risk_level, if_neg (by linarith), if_neg (by linarith)]
  · unfold risk_level; split_ifs <;> simp
  · intro V M W url r h
    unfold scan_url at h
    rcases hM : M.url_model with _ | model <;> rw [hM] at h
    · exact absurd h (by simp)
    rcases hV : M.url_vec with _ | vec <;> rw [hV] at h
    · exact absurd h (by simp)
    rcases hE : extract_domain_info W url with e | info <;> rw [hE] at h
    · exact absurd h (by simp)
    rw [Except.ok.injEq] at h
    rw [← h]
  · intro V M content r h
    unfold scan_email at h
    rcases hM : M.email_model with _ | model <;> rw [hM] at h
    · exact absurd h (by simp)
    rcases hV : M.email_vec with _ | vec <;> rw [hV] at h
    · exact absurd h (by simp)
    rw [Except.ok.injEq] at h
    rw [← h]
  · intro V M url content r h
    unfold scan_combined at h
    rcases h1 : M.url_model with _ | um <;> rw [h1] at h
    · exact absurd h (by simp)
    rcases h2 : M.url_vec with _ | uv <;> rw [h2] at h
    · exact absurd h (by simp)
    rcases h3 : M.email_model with _ | em <;> rw [h3] at h
    · exact absurd h (by simp)
    rcases h4 : M.email_vec with _ | ev <;> rw [h4] at h
    · exact absurd h (by simp)
    rcases h5 : M.coord_model with _ | cm <;> rw [h5] at h
    · exact absurd h (by simp)
    rw [Except.ok.injEq] at h
    rw [← h]

/-- C5: on each endpoint the `phishing` field is true exactly when that
endpoint's final score (blended score, email probability, final probability
respectively) is at least 0.5, with no reference to the risk label; and any
score in `[0.5, 0.6)` yields `phishing = true` alongside risk MEDIUM. -/
theorem phishing_threshold :
    (∀ (V : Type) (M : Models V) (W : World) (url : String) (r : URLResponse),
       scan_url M W url = .ok r → (r.phishing = true ↔ r.blended_score ≥ 0.5))
    ∧ (∀ (V : Type) (M : Models V) (content : String) (r : EmailResponse),
         scan_email M content = .ok r → (r.phishing = true ↔ r.probability ≥ 0.5))
    ∧ (∀ (V : Type) (M : Models V) (url content : String) (r : CombinedResponse),
         scan_combined M url content = .ok r →
           (r.phishing = true ↔ r.final_probability ≥ 0.5))
    ∧ (∀ x : ℝ, 0.5 ≤ x → x < 0.6 →
         risk_level x = "MEDIUM" ∧ decide (x ≥ 0.5) = true) := by
  refine ⟨?_, ?_, ?_, ?_⟩
  · intro V M W url r h
    unfold scan_url at h
    rcases hM : M.url_model with _ | model <;> rw [hM] at h
    · exact absurd h (by simp)
    rcases hV : M.url_vec with _ | vec <;> rw [hV] at h
    · exact absurd h (by simp)
    rcases hE : extract_domain_info W url with e | info <;> rw [hE] at h
    · exact absurd h (by simp)
    rw [Except.ok.injEq] at h
    rw [← h]
    simp
  · intro V M content r h
    unfold scan_email at h
    rcases hM : M.email_model with _ | model <;> rw [hM] at h
    · exact absurd h (by simp)
    rcases hV : M.email_vec with _ | vec <;> rw [hV] at h
    · exact absurd h (by simp)
    rw [Except.ok.injEq] at h
    rw [← h]
    simp
  · intro V M url content r h
    unfold scan_combined at h
    rcases h1 : M.url_model with _ | um <;> rw [h1] at h
    · exact absurd h (by simp)
    rcases h2 : M.url_vec with _ | uv <;> rw [h2] at h
    · exact absurd h (by simp)
    rcases h3 : M.email_model with _ | em <;> rw [h3] at h
    · exact absurd h (by simp)
    rcases h4 : M.email_vec with _ | ev <;> rw [h4] at h
    · exact absurd h (by simp)
    rcases h5 : M.coord_model with _ | cm <;> rw [h5] at h
    · exact absurd h (by simp)
    rw [Except.ok.injEq] at h
    rw [← h]
    simp
  · intro x h1 h2
    refine ⟨?_, by simpa using h1⟩
    rw [risk_level, if_neg (by linarith), if_pos h2]

/-- C1: with the URL classifier and vectorizer loaded, on any request whose
URL `urlparse` accepts, `/scan_url` returns `ml_score` exactly the classifier
probability `p`, `domain_score` exactly the rule score `q`, and
`blended_score` exactly `0.3·p + 0.7·q`, with the configuration constant
`URL_BLEND` fixed at 0.3. -/
theorem scan_url_blend (V : Type) (M : Models V) (W : World) (url nl : String)
    (model : V → ℝ) (vec : String → V)
    (hm : M.url_model = some model) (hv : M.url_vec = some vec)
    (hn : netloc url = .ok nl) :
    URL_BLEND = 0.3
    ∧ ∃ (r : URLResponse) (info : Info),
        extract_domain_info W url = .ok info
        ∧ scan_url M W url = .ok r
        ∧ r.ml_score = model (vec url)
        ∧ r.domain_score = rule_score info
        ∧ r.blended_score = 0.3 * model (vec url) + 0.7 * rule_score info := by
  refine ⟨by norm_num [URL_BLEND], ?_⟩
  have hinfo := extract_domain_info_ok (W := W) hn
  unfold scan_url
  rw [hm, hv, hinfo]
  exact ⟨_, _, rfl, rfl, rfl, rfl, by rw [URL_BLEND]; ring⟩

/-- Witness for C1 at a concrete bundle: classifier output 0.9 on the input
URL, every probe failing. -/
theorem scan_url_blend_witness :
    URL_BLEND = 0.3
    ∧ ∃ (r : URLResponse) (info : Info),
        extract_domain_info failWorld "http://ex.com" = .ok info
        ∧ scan_url testModels failWorld "http://ex.com" = .ok r
        ∧ r.ml_score = 0.9
        ∧ r.domain_score = rule_score info
        ∧ r.blended_score = 0.3 * 0.9 + 0.7 * rule_score info :=
  scan_url_blend Unit testModels failWorld "http://ex.com" "ex.com"
    (fun _ => 0.9) (fun _ => ()) rfl rfl rfl

/-- C3: with all five globals loaded, `/scan_combined` feeds the coordinator
exactly the fixed-order vector `[urlML, emailML, 1, 1]` (the two trailing
constants verbatim) and its output is the final probability.  The embedded
`scan_combined` takes no `World` argument at all — the source handler never
calls `extract_domain_info` or `rule_score` — so the final probability is a
function of the two ML probabilities alone. -/
theorem scan_combined_coordinator (V : Type) (M : Models V) (url content : String)
    (um em : V → ℝ) (cm : List ℝ → ℝ) (uv ev : String → V)
    (h1 : M.url_model = some um) (h2 : M.url_vec = some uv)
    (h3 : M.email_model = some em) (h4 : M.email_vec = some ev)
    (h5 : M.coord_model = some cm) :
    ∃ r : CombinedResponse, scan_combined M url content = .ok r
      ∧ r.final_probability = cm [um (uv url), em (ev content), 1, 1]
      ∧ r.risk = risk_level (cm [um (uv url), em (ev content), 1, 1])
      ∧ r.phishing = decide (cm [um (uv url), em (ev content), 1, 1] ≥ 0.5) := by
  unfold scan_combined
  rw [h1, h2, h3, h4, h5]
  exact ⟨_, rfl, rfl, rfl, rfl⟩

/-- Witness for C3 at a concrete bundle: URL classifier 0.9, email classifier
0.8, coordinator halving its first meta feature. -/
theorem scan_combined_coordinator_witness :
    ∃ r : CombinedResponse, scan_combined testModels "http://ex.com" "hello" = .ok r
      ∧ r.final_probability = ([(0.9 : ℝ), 0.8, 1, 1].headD 0) / 2
      ∧ r.risk = risk_level (([(0.9 : ℝ), 0.8, 1, 1].headD 0) / 2)
      ∧ r.phishing = decide ((([(0.9 : ℝ), 0.8, 1, 1].headD 0) / 2) ≥ 0.5) :=
  scan_combined_coordinator Unit testModels "http://ex.com" "hello"
    (fun _ => 0.9) (fun _ => 0.8) (fun l => l.headD 0 / 2)
    (fun _ => ()) (fun _ => ()) rfl rfl rfl rfl rfl

/-- C6 counterexample: the claim's every-URL guarantee fails — for the URL
"http://[" (unbalanced-bracket authority), `urlparse` raises an uncaught
`ValueError` at app.py line 81, outside every `try/except`: no
ReputationSignals record is built and the request aborts with HTTP 500, no
response produced, whatever the probes would have answered. -/
theorem extract_domain_info_ipv6_abort_counterexample :
    netloc "http://[" = .error .valueError
    ∧ extract_domain_info failWorld "http://[" = .error .valueError
    ∧ scan_url halfModels failWorld "http://[" = .error .valueError
    ∧ httpStatus (scan_url halfModels failWorld "http://[") = 500 :=
  ⟨rfl, rfl, rfl, rfl⟩

/-- C6 amended: for every URL that `urlparse` accepts, no probe failure
aborts the request — a failed or malformed WHOIS lookup yields `age = none`
(unknown, not zero, not infinity), a failed DNS resolution yields
`dns = false`, a failed TLS handshake yields `ssl = false`, and
`extract_domain_info` returns the complete four-signal record so the
response is still produced.  (The `urlparse` call itself is unprotected: an
unbalanced-bracket authority raises an uncaught `ValueError` before any
probe runs.) -/
theorem extract_domain_info_probe_fault_tolerant (W : World) (url nl : String)
    (hn : netloc url = .ok nl) :
    ∃ info : Info,
      extract_domain_info W url = .ok info
      ∧ (∀ e, W.whois (registeredOf W nl url) = .error e → info.age = none)
      ∧ (W.whois (registeredOf W nl url) = .ok .nonDate → info.age = none)
      ∧ (W.whois (registeredOf W nl url) = .ok (.list []) → info.age = none)
      ∧ (∀ e, W.dns (registeredOf W nl url) = .error e → info.dns = false)
      ∧ (∀ e, W.tls (registeredOf W nl url) = .error e → info.ssl = false)
      ∧ info =
          { age := whoisAge (W.whois (registeredOf W nl url))
            dns := match W.dns (registeredOf W nl url) with
                   | .ok _ => true | .error _ => false
            ssl := match W.tls (registeredOf W nl url) with
                   | .ok _ => true | .error _ => false
            entropy :=
              shannon_entropy ⟨(splitDot (registeredOf W nl url).data).headD []⟩ }
      ∧ (∀ (V : Type) (M : Models V) (model : V → ℝ) (vec : String → V),
           M.url_model = some model → M.url_vec = some vec →
             ∃ r : URLResponse, scan_url M W url = .ok r) := by
  refine ⟨_, extract_domain_info_ok hn, ?_, ?_, ?_, ?_, ?_, rfl, ?_⟩
  · intro e he; simp [whoisAge, he]
  · intro he; simp [whoisAge, he]
  · intro he; simp [whoisAge, he]
  · intro e he; simp [he]
  · intro e he; simp [he]
  · intro V M model vec hm hv
    unfold scan_url
    rw [hm, hv, extract_domain_info_ok hn]
    exact ⟨_, rfl⟩

/-- Witness for the amended C6 at the authority-free input "not a url" with
every probe failing: age unknown, dns and ssl false, record complete,
response produced. -/
theorem extract_domain_info_probe_fault_tolerant_witness :
    ∃ info : Info,
      extract_domain_info failWorld "not a url" = .ok info
      ∧ (∀ e, failWorld.whois (registeredOf failWorld "" "not a url") = .error e →
           info.age = none)
      ∧ (failWorld.whois (registeredOf failWorld "" "not a url") = .ok .nonDate →
           info.age = none)
      ∧ (failWorld.whois (registeredOf failWorld "" "not a url") = .ok (.list []) →
           info.age = none)
      ∧ (∀ e, failWorld.dns (registeredOf failWorld "" "not a url") = .error e →
           info.dns = false)
      ∧ (∀ e, failWorld.tls (registeredOf failWorld "" "not a url") = .error e →
           info.ssl = false)
      ∧ info =
          { age := whoisAge (failWorld.whois (registeredOf failWorld "" "not a url"))
            dns := match failWorld.dns (registeredOf failWorld "" "not a url") with
                   | .ok _ => true | .error _ => false
            ssl := match failWorld.tls (registeredOf failWorld "" "not a url") with
                   | .ok _ => true | .error _ => false
            entropy := shannon_entropy
              ⟨(splitDot (registeredOf failWorld "" "not a url").data).headD []⟩ }
      ∧ (∀ (V : Type) (M : Models V) (model : V → ℝ) (vec : String → V),
           M.url_model = some model → M.url_vec = some vec →
             ∃ r : URLResponse, scan_url M failWorld "not a url" = .ok r) :=
  extract_domain_info_probe_fault_tolerant failWorld "not a url" "" rfl

/-- C7 counterexample: before startup every model global is still `None`; a
`/scan_url` request then raises `AttributeError` (attribute access on `None`),
which FastAPI surfaces as HTTP 500 internal server error — not as an explicit
service-unavailable (503) response. -/
theorem scan_url_before_startup_counterexample :
    scan_url noModels failWorld "http://ex.com" = .error .attributeError
    ∧ httpStatus (scan_url noModels failWorld "http://ex.com") = 500
    ∧ 500 ≠ 503 :=
  ⟨rfl, rfl, by decide⟩

/-- C7 amended: a request arriving before model initialization does fail fast
— no handler blocks — but with an `AttributeError` escaping the handler
(HTTP 500 internal server error), not an explicit ModelUnavailable /
service-unavailable condition: no readiness check exists in any handler. -/
theorem scan_before_startup_attribute_error (V : Type) (M : Models V) (W : World)
    (url content : String) (hu : M.url_model = none) (he : M.email_model = none) :
    scan_url M W url = .error .attributeError
    ∧ scan_email M content = .error .attributeError
    ∧ scan_combined M url content = .error .attributeError
    ∧ httpStatus (scan_url M W url) = 500
    ∧ httpStatus (scan_email M content) = 500
    ∧ httpStatus (scan_combined M url content) = 500 := by
  have h1 : scan_url M W url = .error .attributeError := by
    unfold scan_url
    rw [hu]
  have h2 : scan_email M content = .error .attributeError := by
    unfold scan_email
    rw [he]
  have h3 : scan_combined M url content = .error .attributeError := by
    unfold scan_combined
    rw [hu]
  exact ⟨h1, h2, h3, by rw [h1]; rfl, by rw [h2]; rfl, by rw [h3]; rfl⟩

/-- Witness for the amended C7 at the concrete pre-startup state. -/
theorem scan_before_startup_attribute_error_witness :
    scan_url noModels failWorld "http://pre.io" = .error .attributeError
    ∧ scan_email noModels "hello" = .error .attributeError
    ∧ scan_combined noModels "http://pre.io" "hello" = .error .attributeError
    ∧ httpStatus (scan_url noModels failWorld "http://pre.io") = 500
    ∧ httpStatus (scan_email noModels "hello") = 500
    ∧ httpStatus (scan_combined noModels "http://pre.io" "hello") = 500 :=
  scan_before_startup_attribute_error Unit noModels failWorld "http://pre.io" "hello" rfl rfl

/-- C8 counterexample: the input "not a url" has no network authority
(`urlparse` netloc is empty) and no registrable domain, yet `/scan_url` does
not reject it as a client error — the whole string falls back as the domain,
the probes degrade, ML inference and rule scoring run, and a complete
blended 200 response is returned. -/
theorem scan_url_unparseable_counterexample :
    netloc "not a url" = .ok ""
    ∧ failWorld.registered_domain "not a url" = ""
    ∧ scan_url halfModels failWorld "not a url" =
        .ok { ml_score := 0.5, domain_score := 0.5, blended_score := 0.5,
              risk := "MEDIUM", phishing := true }
    ∧ httpStatus (scan_url halfModels failWorld "not a url") = 200 := by
  have hq : rule_score
      { age := none, dns := false, ssl := false, entropy := shannon_entropy "" }
        = 0.5 := by
    rw [shannon_entropy_empty]
    have h : ¬ ((0:ℝ) > 3.5) := by norm_num
    simp only [rule_score, ageFlag, Bool.not_false, if_neg h, if_pos rfl, if_false, if_true]
    norm_num
  have hstep : scan_url halfModels failWorld "not a url" =
      .ok { ml_score := 0.5,
            domain_score := rule_score
              { age := none, dns := false, ssl := false, entropy := shannon_entropy "" },
            blended_score := URL_BLEND * 0.5
              + (1 - URL_BLEND) * rule_score
                  { age := none, dns := false, ssl := false, entropy := shannon_entropy "" },
            risk := risk_level (URL_BLEND * 0.5
              + (1 - URL_BLEND) * rule_score
                  { age := none, dns := false, ssl := false, entropy := shannon_entropy "" }),
            phishing := decide ((URL_BLEND * 0.5
              + (1 - URL_BLEND) * rule_score
                  { age := none, dns := false, ssl := false, entropy := shannon_entropy "" })
                ≥ 0.5) } := rfl
  have hb : URL_BLEND * 0.5 + (1 - URL_BLEND) * (0.5:ℝ) = 0.5 := by
    rw [URL_BLEND]; norm_num
  have hrisk : risk_level 0.5 = "MEDIUM" := by
    rw [risk_level, if_neg (by norm_num), if_pos (by norm_num)]
  have hph : decide ((0.5:ℝ) ≥ 0.5) = true := decide_eq_true (by norm_num)
  have hmain : scan_url halfModels failWorld "not a url" =
      .ok { ml_score := 0.5, domain_score := 0.5, blended_score := 0.5,
            risk := "MEDIUM", phishing := true } := by
    rw [hstep, hq, hb, hrisk, hph]
  exact ⟨rfl, rfl, hmain, by rw [hmain]; rfl⟩

/-- C8 amended: with the models loaded, a `/scan_url` request is never
surfaced as a client error.  When `urlparse` accepts the URL — including
inputs with no extractable authority at all, such as "not a url", which fall
back to the whole string as the domain — the handler runs ML inference and
rule scoring and returns a complete blended HTTP 200 response.  When
`urlparse` raises on an unbalanced-bracket authority, the uncaught
`ValueError` aborts the request as an HTTP 500 internal server error with no
scored response.  Every outcome is 200 or 500 — no 4xx client-error branch
exists. -/
theorem scan_url_no_client_error (V : Type) (M : Models V) (W : World) (url : String)
    (model : V → ℝ) (vec : String → V)
    (hm : M.url_model = some model) (hv : M.url_vec = some vec) :
    (∀ nl, netloc url = .ok nl →
       ∃ r : URLResponse, scan_url M W url = .ok r
         ∧ httpStatus (scan_url M W url) = 200
         ∧ r.ml_score = model (vec url))
    ∧ (netloc url = .error .valueError →
        scan_url M W url = .error .valueError
        ∧ httpStatus (scan_url M W url) = 500)
    ∧ (httpStatus (scan_url M W url) = 200 ∨ httpStatus (scan_url M W url) = 500) := by
  refine ⟨?_, ?_, ?_⟩
  · intro nl hn
    unfold scan_url
    rw [hm, hv, extract_domain_info_ok hn]
    exact ⟨_, rfl, rfl, rfl⟩
  · intro hn
    have hE : extract_domain_info W url = .error .valueError := by
      unfold extract_domain_info
      rw [hn]
    unfold scan_url
    rw [hm, hv, hE]
    exact ⟨rfl, rfl⟩
  · rcases hS : scan_url M W url with e | r
    · exact Or.inr rfl
    · exact Or.inl rfl

/-- Witness for the amended C8 at the authority-free input "not a url". -/
theorem scan_url_no_client_error_witness :
    (∀ nl, netloc "not a url" = .ok nl →
       ∃ r : URLResponse, scan_url halfModels failWorld "not a url" = .ok r
         ∧ httpStatus (scan_url halfModels failWorld "not a url") = 200
         ∧ r.ml_score = 0.5)
    ∧ (netloc "not a url" = .error .valueError →
        scan_url halfModels failWorld "not a url" = .error .valueError
        ∧ httpStatus (scan_url halfModels failWorld "not a url") = 500)
    ∧ (httpStatus (scan_url halfModels failWorld "not a url") = 200
       ∨ httpStatus (scan_url halfModels failWorld "not a url") = 500) :=
  scan_url_no_client_error Unit halfModels failWorld "not a url"
    (fun _ => 0.5) (fun _ => ()) rfl rfl

/-- C9 counterexample: nothing clamps the classifier output before the blend.
With a URL classifier returning the out-of-range value 2.0 and a rule score
of 0.75, the operand combined is exactly 2.0 (`ml_score = 2`) and the blended
score is `0.3·2 + 0.7·0.75 = 1.125`, outside `[0, 1]`. -/
theorem scan_url_no_clamp_counterexample :
    scan_url outOfRangeModels youngWorld "http://x.y" =
      .ok { ml_score := 2, domain_score := 0.75, blended_score := 1.125,
            risk := "HIGH", phishing := true }
    ∧ ¬ ((1.125 : ℝ) ≤ 1) := by
  have hq : rule_score
      { age := some 5, dns := false, ssl := false, entropy := shannon_entropy "" }
        = 0.75 := by
    rw [shannon_entropy_empty]
    have h : ¬ ((0:ℝ) > 3.5) := by norm_num
    have ha : ageFlag (some 5) = true := rfl
    simp only [rule_score, ha, Bool.not_false, if_neg h, if_pos rfl, if_false, if_true]
    norm_num
  have hstep : scan_url outOfRangeModels youngWorld "http://x.y" =
      .ok { ml_score := 2,
            domain_score := rule_score
              { age := some 5, dns := false, ssl := false, entropy := shannon_entropy "" },
            blended_score := URL_BLEND * 2
              + (1 - URL_BLEND) * rule_score
                  { age := some 5, dns := false, ssl := false,
                    entropy := shannon_entropy "" },
            risk := risk_level (URL_BLEND * 2
              + (1 - URL_BLEND) * rule_score
                  { age := some 5, dns := false, ssl := false,
                    entropy := shannon_entropy "" }),
            phishing := decide ((URL_BLEND * 2
              + (1 - URL_BLEND) * rule_score
                  { age := some 5, dns := false, ssl := false,
                    entropy := shannon_entropy "" })
                ≥ 0.5) } := rfl
  have hb : URL_BLEND * 2 + (1 - URL_BLEND) * (0.75:ℝ) = 1.125 := by
    rw [URL_BLEND]; norm_num
  have hrisk : risk_level 1.125 = "HIGH" := by
    rw [risk_level, if_neg (by norm_num), if_neg (by norm_num)]
  have hph : decide ((1.125:ℝ) ≥ 0.5) = true := decide_eq_true (by norm_num)
  refine ⟨?_, by norm_num⟩
  rw [hstep, hq, hb, hrisk, hph]

/-- C9 amended: no clamping step exists — the classifier output is combined
as returned (`ml_score` is the raw value) — and the blended score lies in
`[0, 1]` exactly because the blend is a convex combination: whenever the
classifier output itself lies in `[0, 1]` (the rule score always does), so
does the blend; out-of-range classifier outputs propagate unclamped. -/
theorem scan_url_blend_in_unit_interval (V : Type) (M : Models V) (W : World)
    (url nl : String) (model : V → ℝ) (vec : String → V)
    (hm : M.url_model = some model) (hv : M.url_vec = some vec)
    (hn : netloc url = .ok nl)
    (h0 : 0 ≤ model (vec url)) (h1 : model (vec url) ≤ 1) :
    ∃ r : URLResponse, scan_url M W url = .ok r
      ∧ r.ml_score = model (vec url)
      ∧ 0 ≤ r.blended_score ∧ r.blended_score ≤ 1 := by
  unfold scan_url
  rw [hm, hv, extract_domain_info_ok hn]
  refine ⟨_, rfl, rfl, ?_, ?_⟩
  · exact (blend_mem_unit h0 h1 (rule_score_mem_unit _).1 (rule_score_mem_unit _).2).1
  · exact (blend_mem_unit h0 h1 (rule_score_mem_unit _).1 (rule_score_mem_unit _).2).2

/-- Witness for the amended C9: classifier output 0.9 lies in the unit
interval, and so does the resulting blended score. -/
theorem scan_url_blend_in_unit_interval_witness :
    ∃ r : URLResponse, scan_url testModels youngWorld "http://x.y" = .ok r
      ∧ r.ml_score = 0.9
      ∧ 0 ≤ r.blended_score ∧ r.blended_score ≤ 1 :=
  scan_url_blend_in_unit_interval Unit testModels youngWorld "http://x.y" "x.y"
    (fun _ => 0.9) (fun _ => ()) rfl rfl rfl (by norm_num) (by norm_num)

end PhishGuard
